import Mathlib

/-!
# Verification of the design-pattern examples

Shallow embedding of the pattern examples of this repository
(`behavioral/chain_of_responsibility.py`, `creational/builder.py`,
`creational/singleton.py`, `structural/composite.py`, `structural/decorator.py`,
`structural/facade.py`, `structural/flyweight.py`, `structural/proxy.py`)
together with proofs of the documented behavioral properties.

Python object references are modelled as natural-number object ids; reference
equality is equality of ids.  Mutable state is threaded explicitly.  Python
exceptions are modelled with `Except`.
-/

/-! ## Chain of Responsibility (`behavioral/chain_of_responsibility.py`)

The concrete handlers are `MonkeyHandler`, `SquirrelHandler` and `DogHandler`.
A handler object together with the successors reachable through its
`_next_handler` field is a finite chain; we represent the chain seen from the
handler on which `handle` is invoked as the list of handler kinds, in link
order (`set_next` appends at the point of linking; `_next_handler = None` is
the empty tail).  `AbstractHandler.handle` forwards to `_next_handler` when it
exists and returns `None` otherwise; each concrete `handle` first tests its own
recognition predicate.
-/

inductive AnimalHandler where
  | monkeyHandler
  | squirrelHandler
  | dogHandler
deriving DecidableEq, Repr

/-- The recognition test of each concrete `handle` method:
`MonkeyHandler` tests `request == "Banana"`, `SquirrelHandler` tests
`request == "Nut"`, `DogHandler` tests `request == "MeatBall"`. -/
def AnimalHandler.recognizes : AnimalHandler → String → Bool
  | .monkeyHandler, request => request == "Banana"
  | .squirrelHandler, request => request == "Nut"
  | .dogHandler, request => request == "MeatBall"

/-- The result string each concrete handler returns when its test succeeds. -/
def AnimalHandler.result : AnimalHandler → String → String
  | .monkeyHandler, request => "Monkey: I\x27ll eat the " ++ request
  | .squirrelHandler, request => "Squirrel: I\x27ll eat the " ++ request
  | .dogHandler, request => "Dog: I\x27ll eat the " ++ request

/-- `handle` on the first handler of a chain: a concrete handler answers when
its predicate matches, otherwise `AbstractHandler.handle` forwards to the next
handler when one is linked and returns `None` at the end of the chain. -/
def handleChain : List AnimalHandler → String → Option String
  | [], _ => none
  | h :: rest, request =>
      if h.recognizes request then some (h.result request)
      else handleChain rest request

/-! ## Facade (`structural/facade.py`)

The two subsystem classes expose constant-string operations.  The `Facade`
constructor is declared as `def __init__(self, subststem1, subststem2)` (note
the misspelled parameter names) while its body assigns
`self._subsystem1 = subsystem1 or SubSystem1()` and
`self._subsystem2 = subsystem2 or SubSystem2()`: the names `subsystem1` and
`subsystem2` are not bound in the function scope, so Python resolves them in
the module global scope.  We model each global name as unbound (`none`) or
bound to an object id (`some id`); an unbound global read raises `NameError`.
A bound subsystem object is always truthy, so the `or SubSystem1()` fallback
never fires for a global bound to a subsystem object.
-/

def SubSystem1.operation1 : String := "Subsystem1: Ready!"

def SubSystem1.operation_n : String := "Subsystem1: Go!"

def SubSystem2.operation1 : String := "Subsystem2: Get ready!"

def SubSystem2.operation_z : String := "Subsystem2: Fire!"

/-- The attribute state of a constructed `Facade`: the object ids stored in
`self._subsystem1` and `self._subsystem2`. -/
structure FacadeState where
  _subsystem1 : Nat
  _subsystem2 : Nat
deriving DecidableEq, Repr

inductive PyError where
  | nameError (name : String)
deriving DecidableEq, Repr

/-- `Facade.__init__`: `subststem1`/`subststem2` are the (misspelled, unused)
parameters; `gsubsystem1`/`gsubsystem2` are the module globals `subsystem1`
and `subsystem2` that the body actually reads. -/
def Facade.init (subststem1 subststem2 : Nat)
    (gsubsystem1 gsubsystem2 : Option Nat) : Except PyError FacadeState :=
  match gsubsystem1 with
  | none => .error (.nameError "subsystem1")
  | some s1 =>
      match gsubsystem2 with
      | none => .error (.nameError "subsystem2")
      | some s2 => .ok ⟨s1, s2⟩

/-- `Facade.operation`: appends the five result lines in the fixed order and
joins them with newlines.  All `SubSystem1`/`SubSystem2` instances behave
identically, so the result does not depend on the stored ids. -/
def Facade.operation (_f : FacadeState) : String :=
  String.intercalate "\n"
    ["Facade init:", SubSystem1.operation1, SubSystem2.operation1,
     "Facade orders subsystems to perform the action:",
     SubSystem1.operation_n, SubSystem2.operation_z]

/-! ## Builder (`creational/builder.py`) -/

/-- `Product1`: holds the list of parts; `add` appends. -/
structure Product1 where
  parts : List String
deriving DecidableEq, Repr

def Product1.add (p : Product1) (part : String) : Product1 :=
  ⟨p.parts ++ [part]⟩

/-- The attribute state of a `ConcreteBuilder1`: its in-progress `_product`. -/
structure ConcreteBuilder1 where
  _product : Product1
deriving DecidableEq, Repr

/-- `ConcreteBuilder1.reset`: installs a blank `Product1`. -/
def ConcreteBuilder1.reset (_b : ConcreteBuilder1) : ConcreteBuilder1 :=
  ⟨⟨[]⟩⟩

/-- `ConcreteBuilder1.__init__` calls `self.reset()`. -/
def ConcreteBuilder1.new : ConcreteBuilder1 :=
  ConcreteBuilder1.reset ⟨⟨[]⟩⟩

/-- The `product` property getter: returns the current `_product` and calls
`self.reset()`; the pair is (returned product, builder state afterwards). -/
def ConcreteBuilder1.product (b : ConcreteBuilder1) : Product1 × ConcreteBuilder1 :=
  (b._product, b.reset)

def ConcreteBuilder1.produce_part_a (b : ConcreteBuilder1) : ConcreteBuilder1 :=
  ⟨b._product.add "PartA1"⟩

def ConcreteBuilder1.produce_part_b (b : ConcreteBuilder1) : ConcreteBuilder1 :=
  ⟨b._product.add "PartB1"⟩

def ConcreteBuilder1.produce_part_c (b : ConcreteBuilder1) : ConcreteBuilder1 :=
  ⟨b._product.add "PartC1"⟩

/-! ## Association-list helpers

Python `dict`s are modelled as association lists in insertion order:
item assignment on a fresh key appends, item assignment on a present key
replaces the value of its first occurrence in place, lookup finds the first
occurrence. -/

/-- Python `d[k] = v` on an association list. -/
def dictSet {α β : Type} [BEq α] : List (α × β) → α → β → List (α × β)
  | [], k, v => [(k, v)]
  | (k0, v0) :: rest, k, v =>
      if k0 == k then (k0, v) :: rest else (k0, v0) :: dictSet rest k v

theorem lookup_append_none {α β : Type} [BEq α] {l1 l2 : List (α × β)} {k : α}
    (h : l1.lookup k = none) : (l1 ++ l2).lookup k = l2.lookup k := by
  induction l1 with
  | nil => rfl
  | cons p t ih =>
      obtain ⟨a, b⟩ := p
      by_cases hk : k == a
      · simp [List.lookup, hk] at h
      · simp only [List.lookup, hk, cond_false] at h ⊢
        exact ih h

theorem lookup_append_some {α β : Type} [BEq α] {l1 l2 : List (α × β)} {k : α} {v : β}
    (h : l1.lookup k = some v) : (l1 ++ l2).lookup k = some v := by
  induction l1 with
  | nil => simp [List.lookup] at h
  | cons p t ih =>
      obtain ⟨a, b⟩ := p
      by_cases hk : k == a
      · simp only [List.lookup, hk, cond_true] at h ⊢
        exact h
      · simp only [List.lookup, hk, cond_false] at h ⊢
        exact ih h

theorem lookup_dictSet {α β : Type} [BEq α] [LawfulBEq α]
    (l : List (α × β)) (k k0 : α) (v : β) :
    (dictSet l k v).lookup k0 = if k0 == k then some v else l.lookup k0 := by
  induction l with
  | nil =>
      by_cases hk : k0 == k
      · simp [dictSet, List.lookup, hk]
      · simp [dictSet, List.lookup, hk]
  | cons p t ih =>
      obtain ⟨a, b⟩ := p
      by_cases hak : a == k
      · have hak' : a = k := eq_of_beq hak
        subst hak'
        by_cases hk : k0 == a
        · simp [dictSet, List.lookup, hk]
        · simp [dictSet, List.lookup, hk]
      · by_cases hk : k0 == a
        · have hk' : k0 = a := eq_of_beq hk
          subst hk'
          have hka : ¬ (k0 == k) := hak
          simp [dictSet, List.lookup, hak, hka]
        · simp [dictSet, List.lookup, hak, hk, ih]

theorem lookup_none_filter_nil {α β : Type} [BEq α] [LawfulBEq α]
    {l : List (α × β)} {k : α} (h : l.lookup k = none) :
    l.filter (fun p => p.1 == k) = [] := by
  induction l with
  | nil => rfl
  | cons p t ih =>
      obtain ⟨a, b⟩ := p
      by_cases hk : k == a
      · simp [List.lookup, hk] at h
      · have hak : ¬ (a == k) := by
          intro hc
          exact hk (by simp [eq_of_beq hc])
        simp only [List.lookup, hk, cond_false] at h
        simp [List.filter, hak, ih h]

/-! ## Flyweight (`structural/flyweight.py`)

`Flyweight` objects store their `shared_state`; we identify each created
`Flyweight` instance by a fresh object id drawn from an allocation counter, so
reference equality is equality of ids.  The class attribute
`FlyweightFactory._flyweights` is a single `Dict[str, Flyweight]` shared by
every `FlyweightFactory` instance (instances never acquire their own
`_flyweights` attribute: `self._flyweights[key] = ...` is item assignment on
the class-level dict).  The registry state is therefore modelled as one global
`FlyweightRegistry` threaded through every factory operation, whichever
factory instance performs it. -/

structure FlyweightRegistry where
  _flyweights : List (String × Nat)
  nextId : Nat
deriving DecidableEq, Repr

/-- `FlyweightFactory.get_key`: `"_".join(sorted(state))`. -/
def FlyweightFactory.get_key (state : List String) : String :=
  String.intercalate "_" (state.insertionSort (· ≤ ·))

/-- `FlyweightFactory.get_flyweight`: on a registered key returns the stored
instance and leaves the registry unchanged; on a miss constructs a fresh
`Flyweight`, stores it under the key, and returns it. -/
def FlyweightFactory.get_flyweight (shared_state : List String)
    (st : FlyweightRegistry) : Nat × FlyweightRegistry :=
  match st._flyweights.lookup (FlyweightFactory.get_key shared_state) with
  | some fid => (fid, st)
  | none =>
      (st.nextId,
       ⟨st._flyweights ++ [(FlyweightFactory.get_key shared_state, st.nextId)],
        st.nextId + 1⟩)

/-- `FlyweightFactory.__init__`: for each state in `initial_flyweights`,
assigns `self._flyweights[self.get_key(state)] = Flyweight(state)` on the
shared class-level registry (it does not start from an empty one). -/
def FlyweightFactory.init (initial_flyweights : List (List String))
    (st : FlyweightRegistry) : FlyweightRegistry :=
  initial_flyweights.foldl
    (fun acc state =>
      ⟨dictSet acc._flyweights (FlyweightFactory.get_key state) acc.nextId,
       acc.nextId + 1⟩)
    st

/-! ## Singleton (`creational/singleton.py`)

`SingletonMeta._instances` maps a class (modelled as a class id) to the one
instance created for it (modelled as an object id from an allocation counter).
`SingletonMeta.__call__` constructs via `super().__call__(*args, **kwargs)`
only when the class has no cached instance; the constructor arguments
influence the constructed object's attributes but never its identity. -/

structure SingletonMetaState where
  _instances : List (Nat × Nat)
  nextId : Nat
deriving DecidableEq, Repr

/-- `SingletonMeta.__call__` for class `cls` with constructor arguments
`_args`: returns the cached instance when one exists, otherwise creates,
caches and returns a fresh instance. -/
def SingletonMeta.call (cls : Nat) (_args : List Nat) (st : SingletonMetaState) :
    Nat × SingletonMetaState :=
  match st._instances.lookup cls with
  | some inst => (inst, st)
  | none => (st.nextId, ⟨st._instances ++ [(cls, st.nextId)], st.nextId + 1⟩)

/-- The registry state before any construction request. -/
def SingletonMeta.initial : SingletonMetaState := ⟨[], 0⟩

/-- Runs a sequence of construction requests `(cls, args)` from a state. -/
def SingletonMeta.runCalls : List (Nat × List Nat) → SingletonMetaState → SingletonMetaState
  | [], st => st
  | (cls, args) :: rest, st => SingletonMeta.runCalls rest (SingletonMeta.call cls args st).2

/-- Number of registry entries recorded for class `cls`. -/
def SingletonMetaState.countEntries (cls : Nat) (st : SingletonMetaState) : Nat :=
  (st._instances.filter (fun p => p.1 == cls)).length

/-! ## Theorems for C1, C2, C3 -/

/-- C1: for every chain of handlers linked via `set_next` and every request
`x`, `handle(x)` on the first handler returns the result string of the first
handler whose recognition predicate matches `x` (Monkey matches "Banana",
Squirrel matches "Nut", Dog matches "MeatBall"), and returns `None` (not an
error) when no handler in the chain matches `x`. -/
theorem chain_handle_first_match :
    (∀ (chain : List AnimalHandler) (x : String),
      handleChain chain x =
        (chain.find? (fun h => h.recognizes x)).map (fun h => h.result x)) ∧
    (∀ x, AnimalHandler.recognizes .monkeyHandler x = (x == "Banana")) ∧
    (∀ x, AnimalHandler.recognizes .squirrelHandler x = (x == "Nut")) ∧
    (∀ x, AnimalHandler.recognizes .dogHandler x = (x == "MeatBall")) := by
  refine ⟨?_, fun _ => rfl, fun _ => rfl, fun _ => rfl⟩
  intro chain x
  induction chain with
  | nil => rfl
  | cons h rest ih =>
      by_cases hrec : h.recognizes x
      · simp [handleChain, List.find?, hrec]
      · simp [handleChain, List.find?, hrec, ih]

/-- C2 evaluation at the failing inputs: `Facade.__init__` ignores its
arguments.  Called with subsystem objects 1 and 2 where the module globals
`subsystem1`/`subsystem2` are unbound (any importing caller), it raises
`NameError` instead of storing the arguments; where the globals are bound to
different objects 3 and 4, it stores 3 and 4, not the arguments 1 and 2. -/
theorem facade_init_ignores_arguments :
    Facade.init 1 2 none none = Except.error (.nameError "subsystem1") ∧
    Facade.init 1 2 (some 3) (some 4) = Except.ok ⟨3, 4⟩ ∧
    Facade.operation ⟨3, 4⟩ =
      "Facade init:\nSubsystem1: Ready!\nSubsystem2: Get ready!\n" ++
      "Facade orders subsystems to perform the action:\n" ++
      "Subsystem1: Go!\nSubsystem2: Fire!" := by
  refine ⟨rfl, rfl, ?_⟩
  decide

/-- C3: on a freshly constructed `ConcreteBuilder1`, calling only
`produce_part_a` and then reading the `product` property yields a product
whose parts list is exactly `["PartA1"]`; and since reading `product` always
resets the builder, for every builder state a second read of `product` with no
intervening step calls yields a product with an empty parts list. -/
theorem builder_product_reset :
    (ConcreteBuilder1.new.produce_part_a.product.1.parts = ["PartA1"]) ∧
    (∀ b : ConcreteBuilder1, (b.product.2.product).1.parts = []) := by
  exact ⟨rfl, fun b => rfl⟩

/-! ## Theorems for C4, C5, C10 -/

theorem get_key_perm {s1 s2 : List String} (h : s1.Perm s2) :
    FlyweightFactory.get_key s1 = FlyweightFactory.get_key s2 := by
  unfold FlyweightFactory.get_key
  congr 1
  exact List.eq_of_perm_of_sorted
    ((List.perm_insertionSort _ s1).trans (h.trans (List.perm_insertionSort _ s2).symm))
    (List.sorted_insertionSort _ s1) (List.sorted_insertionSort _ s2)

/-- C4: `get_flyweight` computes an order-independent canonical key (sorted
concatenation of the state's fields); two calls with the same state return the
identical instance without changing the registry, two permutations of the same
fields behave identically, and a call whose key is not yet registered
constructs, stores and returns a new instance, increasing the registry size by
exactly one. -/
theorem flyweight_get_flyweight_spec :
    ∀ (s1 s2 : List String) (st : FlyweightRegistry),
      (∀ (f1 : Nat) (st1 : FlyweightRegistry),
        FlyweightFactory.get_flyweight s1 st = (f1, st1) →
          FlyweightFactory.get_flyweight s1 st1 = (f1, st1)) ∧
      (s1.Perm s2 →
        FlyweightFactory.get_flyweight s2 st = FlyweightFactory.get_flyweight s1 st) ∧
      (st._flyweights.lookup (FlyweightFactory.get_key s1) = none →
        ((FlyweightFactory.get_flyweight s1 st).2)._flyweights.length =
          st._flyweights.length + 1) := by
  intro s1 s2 st
  refine ⟨?_, ?_, ?_⟩
  · intro f1 st1 hcall
    unfold FlyweightFactory.get_flyweight at hcall ⊢
    cases hlook : st._flyweights.lookup (FlyweightFactory.get_key s1) with
    | some fid =>
        rw [hlook] at hcall
        obtain ⟨hf, hst⟩ := Prod.mk.injEq .. ▸ hcall
        subst hf; subst hst
        simp [hlook]
    | none =>
        rw [hlook] at hcall
        obtain ⟨hf, hst⟩ := Prod.mk.injEq .. ▸ hcall
        subst hf; subst hst
        simp only
        rw [lookup_append_none hlook]
        simp [List.lookup]
  · intro hperm
    unfold FlyweightFactory.get_flyweight
    rw [get_key_perm hperm]
  · intro hnone
    unfold FlyweightFactory.get_flyweight
    rw [hnone]
    simp

/-- C5: the first construction request for a class creates and caches an
instance; every subsequent request, with any arguments, returns the cached
instance unconditionally and leaves the registry unchanged; and from the
initial empty registry, any sequence of construction requests leaves at most
one instance per class in the registry. -/
theorem singleton_call_unique :
    (∀ (cls : Nat) (args : List Nat) (st : SingletonMetaState),
      ((SingletonMeta.call cls args st).2)._instances.lookup cls =
        some (SingletonMeta.call cls args st).1) ∧
    (∀ (cls inst : Nat) (args : List Nat) (st : SingletonMetaState),
      st._instances.lookup cls = some inst →
        SingletonMeta.call cls args st = (inst, st)) ∧
    (∀ (calls : List (Nat × List Nat)) (cls : Nat),
      SingletonMetaState.countEntries cls (SingletonMeta.runCalls calls SingletonMeta.initial) ≤ 1) := by
  refine ⟨?_, ?_, ?_⟩
  · intro cls args st
    unfold SingletonMeta.call
    cases hlook : st._instances.lookup cls with
    | some inst => simpa using hlook
    | none =>
        simp only
        rw [lookup_append_none hlook]
        simp [List.lookup]
  · intro cls inst args st hlook
    unfold SingletonMeta.call
    rw [hlook]
  · have hstep : ∀ (cls c : Nat) (args : List Nat) (st : SingletonMetaState),
        SingletonMetaState.countEntries cls st ≤ 1 →
        SingletonMetaState.countEntries cls (SingletonMeta.call c args st).2 ≤ 1 := by
      intro cls c args st hle
      unfold SingletonMeta.call
      cases hlook : st._instances.lookup c with
      | some inst => exact hle
      | none =>
          simp only [SingletonMetaState.countEntries] at hle ⊢
          rw [List.filter_append]
          by_cases hc : c = cls
          · subst hc
            rw [lookup_none_filter_nil hlook]
            simp
          · have hcc : ¬ ((c, st.nextId).1 == cls) := by simpa using hc
            simp [List.filter, hcc, hle]
    have hrun : ∀ (calls : List (Nat × List Nat)) (cls : Nat) (st : SingletonMetaState),
        SingletonMetaState.countEntries cls st ≤ 1 →
        SingletonMetaState.countEntries cls (SingletonMeta.runCalls calls st) ≤ 1 := by
      intro calls
      induction calls with
      | nil => intro cls st h; exact h
      | cons p rest ih =>
          intro cls st h
          obtain ⟨c, args⟩ := p
          exact ih cls _ (hstep cls c args st h)
    intro calls cls
    exact hrun calls cls SingletonMeta.initial (by simp [SingletonMetaState.countEntries, SingletonMeta.initial])

/-- C10: the flyweight registry is class-level state shared by all factory
instances: constructing another factory with initial flyweights inserts them
into the registry as it stands (every already-registered key stays
registered), `get_flyweight` preserves every existing binding (entries created
through any instance remain visible to every other), and no operation ever
removes an entry. -/
theorem flyweight_registry_shared :
    ∀ (initial : List (List String)) (st : FlyweightRegistry) (k : String)
      (v : Nat) (s : List String),
      ((st._flyweights.lookup k).isSome →
        (((FlyweightFactory.init initial st)._flyweights).lookup k).isSome) ∧
      (st._flyweights.lookup k = some v →
        ((FlyweightFactory.get_flyweight s st).2)._flyweights.lookup k = some v) ∧
      (∀ state ∈ initial,
        (((FlyweightFactory.init initial st)._flyweights).lookup
          (FlyweightFactory.get_key state)).isSome) := by
  have hstepSome : ∀ (st : FlyweightRegistry) (state : List String) (k : String),
      (st._flyweights.lookup k).isSome →
      (((FlyweightFactory.init [state] st)._flyweights).lookup k).isSome := by
    intro st state k h
    simp only [FlyweightFactory.init, List.foldl]
    rw [lookup_dictSet]
    by_cases hk : k == FlyweightFactory.get_key state
    · simp [hk]
    · simpa [hk] using h
  have hinitSome : ∀ (initial : List (List String)) (st : FlyweightRegistry) (k : String),
      (st._flyweights.lookup k).isSome →
      (((FlyweightFactory.init initial st)._flyweights).lookup k).isSome := by
    intro initial
    induction initial with
    | nil => intro st k h; exact h
    | cons s rest ih =>
        intro st k h
        exact ih _ k (hstepSome st s k h)
  refine fun initial st k v s => ⟨hinitSome initial st k, ?_, ?_⟩
  · intro h
    unfold FlyweightFactory.get_flyweight
    cases hlook : st._flyweights.lookup (FlyweightFactory.get_key s) with
    | some fid => simpa using h
    | none =>
        simp only
        exact lookup_append_some h
  · induction initial generalizing st with
    | nil => intro state hmem; simp at hmem
    | cons s0 rest ih =>
        intro state hmem
        rcases List.mem_cons.mp hmem with heq | hmem0
        · subst heq
          have hone : (((FlyweightFactory.init [state] st)._flyweights).lookup
              (FlyweightFactory.get_key state)).isSome := by
            simp only [FlyweightFactory.init, List.foldl]
            rw [lookup_dictSet]
            simp
          exact hinitSome rest _ _ hone
        · exact ih _ state hmem0

theorem flyweight_get_flyweight_spec_witness :
    FlyweightFactory.get_flyweight ["a", "b"]
        ⟨[(FlyweightFactory.get_key ["a", "b"], 0)], 1⟩ =
      (0, ⟨[(FlyweightFactory.get_key ["a", "b"], 0)], 1⟩) ∧
    FlyweightFactory.get_flyweight ["b", "a"] ⟨[], 0⟩ =
      FlyweightFactory.get_flyweight ["a", "b"] ⟨[], 0⟩ ∧
    ((FlyweightFactory.get_flyweight ["a", "b"] ⟨[], 0⟩).2)._flyweights.length =
      (⟨[], 0⟩ : FlyweightRegistry)._flyweights.length + 1 :=
  ⟨(flyweight_get_flyweight_spec ["a", "b"] ["b", "a"] ⟨[], 0⟩).1 0
      ⟨[(FlyweightFactory.get_key ["a", "b"], 0)], 1⟩ rfl,
   (flyweight_get_flyweight_spec ["a", "b"] ["b", "a"] ⟨[], 0⟩).2.1 (by decide),
   (flyweight_get_flyweight_spec ["a", "b"] ["b", "a"] ⟨[], 0⟩).2.2 rfl⟩

theorem singleton_call_unique_witness :
    SingletonMeta.call 0 [] ⟨[(0, 5)], 6⟩ = (5, ⟨[(0, 5)], 6⟩) :=
  singleton_call_unique.2.1 0 5 [] ⟨[(0, 5)], 6⟩ rfl

theorem flyweight_registry_shared_witness :
    ((((FlyweightFactory.init [["x"]] ⟨[("k", 7)], 8⟩)._flyweights).lookup "k").isSome) ∧
    (((FlyweightFactory.get_flyweight ["y"] ⟨[("k", 7)], 8⟩).2)._flyweights.lookup "k"
      = some 7) ∧
    (((FlyweightFactory.init [["x"]] ⟨[("k", 7)], 8⟩)._flyweights).lookup
        (FlyweightFactory.get_key ["x"])).isSome :=
  ⟨(flyweight_registry_shared [["x"]] ⟨[("k", 7)], 8⟩ "k" 7 ["y"]).1 (by decide),
   (flyweight_registry_shared [["x"]] ⟨[("k", 7)], 8⟩ "k" 7 ["y"]).2.1 (by decide),
   (flyweight_registry_shared [["x"]] ⟨[("k", 7)], 8⟩ "k" 7 ["y"]).2.2 ["x"]
     (List.mem_singleton.mpr rfl)⟩

/-! ## Decorator (`structural/decorator.py`)

A component is either a `ConcreteComponent` or a decorator wrapping exactly
one inner component; `Decorator.operation` delegates to the wrapped component
and the concrete decorators wrap the delegated result in their own label. -/

inductive DComponent where
  | concreteComponent : DComponent
  | concreteDecoratorA (component : DComponent) : DComponent
  | concreteDecoratorB (component : DComponent) : DComponent
deriving DecidableEq, Repr

def DComponent.operation : DComponent → String
  | .concreteComponent => "Concrete Component"
  | .concreteDecoratorA c => "ConcreteDecoratorA(" ++ c.operation ++ ")"
  | .concreteDecoratorB c => "ConcreteDecoratorB(" ++ c.operation ++ ")"

/-! ## Composite (`structural/composite.py`), recursive operation -/

/-- A component of the composite tree: a `Leaf` or a `Composite` with its
`_children` in insertion order. -/
inductive CComponent where
  | leaf : CComponent
  | composite (children : List CComponent) : CComponent

mutual

/-- `Leaf.operation` returns "Leaf"; `Composite.operation` collects the
children's results in order and joins them with "+" inside "Branch(...)". -/
def CComponent.operation : CComponent → String
  | .leaf => "Leaf"
  | .composite children =>
      "Branch(" ++ String.intercalate "+" (CComponent.operationList children) ++ ")"

/-- The `for child in self._children: results.append(child.operation())` loop. -/
def CComponent.operationList : List CComponent → List String
  | [] => []
  | c :: cs => CComponent.operation c :: CComponent.operationList cs

end

theorem operationList_eq_map (cs : List CComponent) :
    CComponent.operationList cs = cs.map CComponent.operation := by
  induction cs with
  | nil => rfl
  | cons c cs ih => rw [CComponent.operationList, List.map_cons, ih]

/-! ## Composite (`structural/composite.py`), child management

The mutable-object view used by `add`/`remove`: a component object is its
object id plus its `parent` attribute, and a composite additionally holds
`_children` as a list of child ids in insertion order (Python compares the
list elements by object identity here, since `Component` defines no custom
equality). -/

structure ComponentObj where
  id : Nat
  parent : Option Nat
deriving DecidableEq, Repr

structure CompositeObj where
  _children : List Nat
  parent : Option Nat
deriving DecidableEq, Repr

/-- `Composite.add`: appends the component to `self._children` and sets
`component.parent = self` (`selfId` being the id of the composite). -/
def Composite.add (self : CompositeObj) (selfId : Nat) (component : ComponentObj) :
    CompositeObj × ComponentObj :=
  ({ self with _children := self._children ++ [component.id] },
   { component with parent := some selfId })

/-- `Composite.remove`: `self._children.remove(component)` removes the first
occurrence of the component and raises `ValueError` when it is not present
(in which case the subsequent `component.parent = None` never runs); when the
removal succeeds, the parent back-reference is cleared. -/
def Composite.remove (self : CompositeObj) (component : ComponentObj) :
    Except String (CompositeObj × ComponentObj) :=
  if component.id ∈ self._children then
    Except.ok ({ self with _children := self._children.erase component.id },
               { component with parent := none })
  else Except.error "ValueError"

/-- `Composite.operation` seen from one node: it reads `self._children` only,
maps each child to that child's own operation result, and joins the results
with "+" inside "Branch(...)"; `childResult` stands for the recursive calls.
No other attribute of the composite (in particular not `parent`) is read. -/
def Composite.operationOn (self : CompositeObj) (childResult : Nat → String) : String :=
  "Branch(" ++ String.intercalate "+" (self._children.map childResult) ++ ")"

/-! ## Proxy (`structural/proxy.py`)

`Proxy.request` is modelled by the ordered sequence of calls it performs,
as a function of the boolean the access check returns.  The result type is a
plain list of events: no branch raises. -/

inductive ProxyEvent where
  | checkAccessCall
  | realSubjectRequest
  | logAccessCall
deriving DecidableEq, Repr

/-- `Proxy.check_access` as written always returns `True`. -/
def Proxy.check_access : Bool := true

/-- The calls performed by `Proxy.request`, in order: `self.check_access()`
always runs first; only if it returned `True` are
`self._real_subject.request()` and then `self.log_access()` invoked. -/
def Proxy.requestEvents (check : Bool) : List ProxyEvent :=
  if check then
    [ProxyEvent.checkAccessCall, ProxyEvent.realSubjectRequest, ProxyEvent.logAccessCall]
  else
    [ProxyEvent.checkAccessCall]

def Proxy.request : List ProxyEvent := Proxy.requestEvents Proxy.check_access

/-! ## Theorems for C6, C7, C8, C9 -/

/-- C6: wrapping any component `c` with decorator A and then decorator B gives
an outer wrapper whose `operation()` returns
"ConcreteDecoratorB(ConcreteDecoratorA(r))" where `r` is the result of `c`:
nesting order in the output matches wrap order, with innermost-first
evaluation, and since `c` ranges over arbitrarily deep wrappings this holds
at every depth. -/
theorem decorator_wrap_order :
    (∀ c : DComponent,
      (DComponent.concreteDecoratorB (DComponent.concreteDecoratorA c)).operation =
        "ConcreteDecoratorB(ConcreteDecoratorA(" ++ c.operation ++ "))") ∧
    (DComponent.concreteDecoratorB
        (DComponent.concreteDecoratorA DComponent.concreteComponent)).operation =
      "ConcreteDecoratorB(ConcreteDecoratorA(Concrete Component))" := by
  constructor
  · intro c
    show "ConcreteDecoratorB(" ++ ("ConcreteDecoratorA(" ++ c.operation ++ ")") ++ ")" = _
    ext
    simp [String.data_append]
  · decide

/-- C7: a composite's `operation()` recursively invokes `operation()` on each
child in insertion order and joins the results with "+" inside "Branch(...)";
a leaf contributes "Leaf", and the two-branch tree of the example evaluates to
exactly "Branch(Branch(Leaf+Leaf)+Branch(Leaf))". -/
theorem composite_operation_spec :
    (∀ children : List CComponent,
      (CComponent.composite children).operation =
        "Branch(" ++ String.intercalate "+" (children.map CComponent.operation) ++ ")") ∧
    CComponent.leaf.operation = "Leaf" ∧
    (CComponent.composite
        [CComponent.composite [CComponent.leaf, CComponent.leaf],
         CComponent.composite [CComponent.leaf]]).operation =
      "Branch(Branch(Leaf+Leaf)+Branch(Leaf))" := by
  refine ⟨?_, ?_, ?_⟩
  · intro children
    rw [CComponent.operation, operationList_eq_map]
  · rw [CComponent.operation]
  · simp only [CComponent.operation, operationList_eq_map, List.map_cons, List.map_nil]
    decide

/-- C8: for every outcome of the access check, the check runs before any
delegation; if it returns false, the real subject's `request` is not invoked,
the logging hook does not run, and the call completes silently as a no-op; if
it returns true, the real subject's `request` is invoked and the logging hook
runs after that delegation. -/
theorem proxy_request_gating :
    ∀ check : Bool,
      ((Proxy.requestEvents check).head? = some ProxyEvent.checkAccessCall) ∧
      (check = false →
        Proxy.requestEvents check = [ProxyEvent.checkAccessCall] ∧
        ProxyEvent.realSubjectRequest ∉ Proxy.requestEvents check ∧
        ProxyEvent.logAccessCall ∉ Proxy.requestEvents check) ∧
      (check = true →
        Proxy.requestEvents check =
          [ProxyEvent.checkAccessCall, ProxyEvent.realSubjectRequest,
           ProxyEvent.logAccessCall]) := by
  intro check
  cases check <;> simp [Proxy.requestEvents]

theorem proxy_request_gating_witness :
    (Proxy.requestEvents false = [ProxyEvent.checkAccessCall] ∧
     ProxyEvent.realSubjectRequest ∉ Proxy.requestEvents false ∧
     ProxyEvent.logAccessCall ∉ Proxy.requestEvents false) ∧
    Proxy.requestEvents true =
      [ProxyEvent.checkAccessCall, ProxyEvent.realSubjectRequest,
       ProxyEvent.logAccessCall] :=
  ⟨(proxy_request_gating false).2.1 rfl, (proxy_request_gating true).2.2 rfl⟩

/-- C9 counterexample: the claim quantifies over every component `c`.  For a
composite with no children and a component with id 0 and parent 5,
`remove` raises `ValueError` instead of deleting the component and clearing
its parent; and for a composite whose children list holds id 7 twice,
`remove` deletes only the first occurrence, so 7 is still a child. -/
theorem composite_remove_counterexample :
    Composite.remove ⟨[], none⟩ ⟨0, some 5⟩ = Except.error "ValueError" ∧
    Composite.remove ⟨[7, 7], none⟩ ⟨7, some 1⟩ =
      Except.ok (⟨[7], none⟩, ⟨7, none⟩) := by
  constructor
  · rfl
  · rfl

/-- C9 (amended): `add(c)` appends `c` to the children and sets `c`'s parent
back-reference to the composite; `remove(c)`, when `c` is among the children,
deletes the first occurrence of `c` from the children and clears `c`'s parent
back-reference, and raises `ValueError` (leaving the parent untouched)
otherwise; and the value `operation()` returns is a function of the children's
results only — neither the composite's parent back-reference nor any other
state affects it. -/
theorem composite_add_remove_frame :
    ∀ (self : CompositeObj) (selfId : Nat) (c : ComponentObj),
      ((Composite.add self selfId c).1._children = self._children ++ [c.id] ∧
       (Composite.add self selfId c).1.parent = self.parent ∧
       (Composite.add self selfId c).2.parent = some selfId ∧
       (Composite.add self selfId c).2.id = c.id) ∧
      (c.id ∈ self._children →
        Composite.remove self c =
          Except.ok ({ self with _children := self._children.erase c.id },
                     { c with parent := none })) ∧
      (c.id ∉ self._children →
        Composite.remove self c = Except.error "ValueError") ∧
      (∀ (children : List Nat) (p1 p2 : Option Nat) (childResult : Nat → String),
        Composite.operationOn ⟨children, p1⟩ childResult =
          Composite.operationOn ⟨children, p2⟩ childResult) := by
  intro self selfId c
  refine ⟨⟨rfl, rfl, rfl, rfl⟩, ?_, ?_, fun _ _ _ _ => rfl⟩
  · intro hmem
    simp [Composite.remove, hmem]
  · intro hmem
    simp [Composite.remove, hmem]

theorem composite_add_remove_frame_witness :
    Composite.remove ⟨[3, 4], some 9⟩ ⟨3, some 1⟩ =
      Except.ok (⟨[4], some 9⟩, ⟨3, none⟩) ∧
    Composite.remove ⟨[3, 4], some 9⟩ ⟨5, some 1⟩ = Except.error "ValueError" :=
  ⟨(composite_add_remove_frame ⟨[3, 4], some 9⟩ 9 ⟨3, some 1⟩).2.1 (by decide),
   (composite_add_remove_frame ⟨[3, 4], some 9⟩ 9 ⟨5, some 1⟩).2.2.1 (by decide)⟩
